import Mathlib

/-!
Shallow embedding of `src/sync.py` (audio-drama-sync reconciliation engine).

JSON values are modelled by `JVal`; Python `dict.get` and truthiness are
modelled explicitly.  Every definition mirrors the corresponding Python
function; machine behaviour that the claims do not exercise (HTTP transport,
sleeping, printing) is abstracted as explicit function parameters.
-/

/-- JSON values as delivered by `r.json()`.  Python's `json` module maps
JSON `null` to `None`; we keep `null` as a value and model `dict.get`
accordingly. -/
inductive JVal where
  | null : JVal
  | bool (b : Bool) : JVal
  | num (n : Int) : JVal
  | str (s : String) : JVal
  | arr (xs : List JVal) : JVal
  | obj (fs : List (String × JVal)) : JVal

namespace JVal

/-- Python `isinstance(x, dict)`. -/
def isObj : JVal → Bool
  | .obj _ => true
  | _ => false

/-- Python `x is None` (JSON `null` decodes to Python `None`). -/
def isNull : JVal → Bool
  | .null => true
  | _ => false

/-- Key lookup inside an object; `none` when the value is not an object or
the key is absent. -/
def find? : JVal → String → Option JVal
  | .obj fs, k => fs.lookup k
  | _, _ => none

/-- Python `d.get(k, default)`. -/
def getD (j : JVal) (k : String) (d : JVal) : JVal := (j.find? k).getD d

/-- Python `d.get(k)`: a missing key gives `None`, which coincides with the
image of JSON `null`. -/
def get (j : JVal) (k : String) : JVal := j.getD k .null

end JVal

/-- Python truthiness of a JSON-decoded value. -/
def pyTruthy : JVal → Bool
  | .null => false
  | .bool b => b
  | .num n => n != 0
  | .str s => s != ""
  | .arr xs => !xs.isEmpty
  | .obj fs => !fs.isEmpty

/-- Python `(x or "")` for a value expected to be a string (as applied before
`.strip()` in the source). -/
def orStr (j : JVal) : String :=
  if pyTruthy j then
    match j with
    | .str s => s
    | _ => ""
  else ""

/-- Python `(x or \x7b\x7d)`. -/
def orObj (j : JVal) : JVal := if pyTruthy j then j else .obj []

/-- Python `(x or [])`. -/
def orArr (j : JVal) : JVal := if pyTruthy j then j else .arr []

/-- Iterate a JSON array (`for item in xs`). -/
def asArr : JVal → List JVal
  | .arr xs => xs
  | _ => []

/-- Python `s.strip()`: drop whitespace from both ends. -/
def pyStrip (s : String) : String :=
  ⟨(((s.toList.dropWhile Char.isWhitespace).reverse.dropWhile Char.isWhitespace).reverse)⟩

/-- Occurrence of `w` as a contiguous sublist of `s` (helper for `strIn`). -/
def hasSub (w : List Char) : List Char → Bool
  | [] => w.isEmpty
  | s@(_ :: rest) => w.isPrefixOf s || hasSub w rest

/-- Python `w in s` substring test. -/
def strIn (w s : String) : Bool := hasSub w.toList s.toList

/-! ### Cast Ranker (`pick_main_cvs`) -/

/-- Production-credit stoplist (`BAD_WORDS_STRONG`). -/
def BAD_WORDS_STRONG : List String :=
  ["导演", "监制", "制作", "策划", "编剧", "后期", "统筹", "录音", "配音导演",
   "旁白", "报幕", "字幕", "美工", "宣发", "运营", "音效", "混音", "母带"]

/-- Music-credit stoplist (`MUSIC_WORDS_STRONG`). -/
def MUSIC_WORDS_STRONG : List String :=
  ["演唱", "主题曲", "片尾曲", "插曲", "作词", "作曲", "编曲", "和声", "歌曲", "OST"]

/-- One ranked cast candidate: the tuple `(score, character, name, group)`
appended to `candidates` in `pick_main_cvs`. -/
structure Cand where
  score : Int
  character : String
  name : String
  group : String
deriving DecidableEq, Repr

/-- The shared extraction-and-filter prelude of both passes of
`pick_main_cvs`: strip the fields, drop entries without a performer name,
and hard-exclude entries whose role label hits either stoplist.  Returns
`(character, name, group)` for surviving entries. -/
def extractCredit (item : JVal) : Option (String × String × String) :=
  let character := pyStrip (orStr (item.get "character"))
  let cv_info := orObj (item.get "cv_info")
  let name := pyStrip (orStr (cv_info.get "name"))
  let group := pyStrip (orStr (cv_info.get "group"))
  if name = "" then none
  else if MUSIC_WORDS_STRONG.any (fun w => strIn w character) then none
  else if BAD_WORDS_STRONG.any (fun w => strIn w character) then none
  else some (character, name, group)

/-- The strict-pass score of a surviving entry. -/
def creditScore (character : String) : Int :=
  if character ≠ "" then
    20 + (if strIn "/" character then -4 else 0)
       + (if character.length > 10 then -3 else 0)
  else -10

/-- First (strict) pass over the raw credit list. -/
def strictCands (cvs : List JVal) : List Cand :=
  cvs.filterMap fun item => (extractCredit item).map fun cng =>
    ⟨creditScore cng.1, cng.1, cng.2.1, cng.2.2⟩

/-- Second (relaxed) pass: same filters, flat score 5. -/
def relaxedCands (cvs : List JVal) : List Cand :=
  cvs.filterMap fun item => (extractCredit item).map fun cng =>
    ⟨5, cng.1, cng.2.1, cng.2.2⟩

/-- The full candidate list of `pick_main_cvs`: the strict pass, plus — when
it produced fewer than `k` entries — the whole relaxed pass appended. -/
def candList (cvs : List JVal) (k : Nat) : List Cand :=
  let c1 := strictCands cvs
  if c1.length < k then c1 ++ relaxedCands cvs else c1

/-- The comparator of the final stable sort: descending by score
(`candidates.sort(key=lambda x: x[0], reverse=True)` is the stable sort by
this total preorder). -/
def candLe (a b : Cand) : Prop := b.score ≤ a.score

instance : DecidableRel candLe := fun a b => inferInstanceAs (Decidable (b.score ≤ a.score))

instance : IsTotal Cand candLe := ⟨fun a b => le_total b.score a.score⟩

instance : IsTrans Cand candLe := ⟨fun _ _ _ h1 h2 => le_trans h2 h1⟩

/-- The selected top-`k` candidate tuples (`candidates.sort(...); candidates[:k]`). -/
def pickTop (cvs : List JVal) (k : Nat) : List Cand :=
  (List.insertionSort candLe (candList cvs k)).take k

/-- Rendering of one selected entry. -/
def renderCand (c : Cand) : String :=
  (if c.character ≠ "" then c.character else "角色未标注") ++ " - " ++ c.name ++
    (if c.group ≠ "" then "(" ++ c.group ++ ")" else "")

/-- The full `pick_main_cvs(cvs, k)`. -/
def pick_main_cvs (cvs : List JVal) (k : Nat) : String :=
  let top := pickTop cvs k
  if top.isEmpty then "" else String.intercalate "; " (top.map renderCand)

/-! ### Update Scheduler (`should_update`) -/

/-- The constant `UPDATE_DAYS_SERIAL`. -/
def UPDATE_DAYS_SERIAL : Int := 7

/-- The scheduler `should_update(is_serial_checked, last_sync_start)`.

The ISO-datetime parser `_parse_iso_dt` is abstracted as a parameter
`parseIso` returning the parsed instant in seconds (or `none` on failure);
`now` is `_now_utc()` in seconds.  `age_days >= UPDATE_DAYS_SERIAL` with
`age_days = seconds / 86400.0` is, on these inputs, exactly
`UPDATE_DAYS_SERIAL * 86400 ≤ seconds`. -/
def should_update (parseIso : String → Option Int) (now : Int)
    (is_serial_checked : Bool) (last_sync_start : String) : Bool :=
  if last_sync_start = "" then true
  else
    match parseIso last_sync_start with
    | none => true
    | some dt =>
      if !is_serial_checked then false
      else decide (UPDATE_DAYS_SERIAL * 86400 ≤ now - dt)

/-! ### Source Fetcher parse layer (`maoer_get_drama`, `maoer_get_episode_details`, `maoer_fetch`) -/

/-- The pure response-parsing part of `maoer_get_drama`:
`info = j.get("info", {})`, `drama = info.get("drama", info.get("Drama", {}))`
guarded by `isinstance(info, dict)`, and the final `drama or {} / cvs or []`.
Returns the `(drama, cvs)` pair of the dict `{"drama": ..., "cvs": ...}`. -/
def maoer_get_drama_parse (j : JVal) : JVal × JVal :=
  let info := j.getD "info" (.obj [])
  let drama := if info.isObj then info.getD "drama" (info.getD "Drama" (.obj [])) else .obj []
  let cvs := if info.isObj then info.getD "cvs" (.arr []) else .arr []
  (orObj drama, orArr cvs)

/-- The pure response-parsing part of `maoer_get_episode_details`: the value
stored under `"info"` of the returned dict, i.e. `j.get("info", {}) or {}`. -/
def maoer_get_episode_details_parse (j : JVal) : JVal :=
  orObj (j.getD "info" (.obj []))

/-- The ephemeral per-run snapshot dict returned by `maoer_fetch`.  Raw
JSON values are kept as such (`title` etc. may be `null` when the source
did not provide them); `latest_count` is `null` exactly when the episode
count could not be determined. -/
structure SourceData where
  title : JVal
  cover_url : JVal
  price : JVal
  is_serial : Bool
  newest_title : JVal
  latest_count : JVal
  cv_text : String
  last_sync : String

/-- The episode-count extraction inside `maoer_fetch`:
prefer `info["pagination"]["count"]` when it is a non-`None` value of a
dict-shaped `pagination`, else fall back to `len(info["Datas"])` when
`Datas` is a non-empty list, else `None`. -/
def latestCountOf (info : JVal) : JVal :=
  if info.isObj then
    let pag := info.getD "pagination" (.obj [])
    if pag.isObj && !(pag.get "count").isNull then pag.get "count"
    else
      match info.getD "Datas" (.arr []) with
      | .arr ds => if !ds.isEmpty then .num ds.length else .null
      | _ => .null
  else .null

/-- The pure part of `maoer_fetch`, as a function of the two raw JSON
responses (metadata call, episode-listing call) and of the current
timestamp string `now_iso` (`_now_utc().isoformat()`). -/
def maoer_fetch_parse (metaJ detailJ : JVal) (now_iso : String) : SourceData :=
  let md := maoer_get_drama_parse metaJ
  let drama := md.1
  let cvs := md.2
  let info := maoer_get_episode_details_parse detailJ
  { title := drama.get "name"
    cover_url := drama.get "cover"
    price := drama.get "price"
    is_serial := pyTruthy (drama.get "serialize")
    newest_title := drama.get "newest"
    latest_count := latestCountOf info
    cv_text := pick_main_cvs (asArr cvs) 4
    last_sync := now_iso }

/-! ### Write Builder (`build_props`) -/

/-- A Notion rich-text/title payload body `[{"text": {"content": s}}]`. -/
def jsonText (content : String) : JVal :=
  .arr [.obj [("text", .obj [("content", .str content)])]]

/-- Extract the string of a JSON string value. -/
def asStr : JVal → String
  | .str s => s
  | _ => ""

/-- The eleven candidate properties of `build_props`, in source order; the
`put` guard against the schema is applied separately.  `CV` is only a
candidate when `data.get("cv_text")` is truthy (a non-empty string). -/
def candidateProps (work_id : Nat) (work_url : String) (data : SourceData) :
    List (String × JVal) :=
  [("Title", .obj [("title", jsonText
      (if pyTruthy data.title then asStr data.title else "猫耳-" ++ toString work_id))]),
   ("Platform", .obj [("select", .obj [("name", .str "猫耳")])]),
   ("Work ID", .obj [("rich_text", jsonText (toString work_id))]),
   ("Work URL", .obj [("url", .str
      (if work_url ≠ "" then work_url
       else "https://www.missevan.com/mdrama/" ++ toString work_id))]),
   ("Cover URL", .obj [("url", data.cover_url)]),
   ("Price", .obj [("number", data.price)]),
   ("Is Serial", .obj [("checkbox", .bool data.is_serial)]),
   ("Latest Episode", .obj [("rich_text", jsonText (orStr data.newest_title))]),
   ("Latest Episode No", .obj [("number", data.latest_count)]),
   ("Last Sync", .obj [("date", .obj [("start", .str data.last_sync)])])]
  ++ (if data.cv_text ≠ "" then
        [("CV", .obj [("rich_text", jsonText data.cv_text)])]
      else [])

/-- The builder `build_props(schema, work_id, work_url, data)`: each candidate property
is written iff its name exists in the destination schema (the `put` helper).
The schema is modelled by its set of declared field names. -/
def build_props (schema : List String) (work_id : Nat) (work_url : String)
    (data : SourceData) : List (String × JVal) :=
  (candidateProps work_id work_url data).filter (fun p => schema.contains p.1)

/-! ### Identifier Resolver (`parse_work_id`) -/

/-- Value of a non-empty decimal digit run (`int(...)` of the captured group). -/
def digitsToNat (ds : List Char) : Nat :=
  ds.foldl (fun a c => a * 10 + (c.toNat - 48)) 0

/-- Greedy `\d+` at the current position: `none` when no digit is ahead. -/
def digitsAt (t : List Char) : Option Nat :=
  let ds := t.takeWhile Char.isDigit
  if ds.isEmpty then none else some (digitsToNat ds)

/-- The regex tail `(?:drama/)?(\d+)` tried at the position immediately
after a matched `/mdrama/`: first with the optional `drama/`, then —
backtracking — without it. -/
def idAfterMdrama (t : List Char) : Option Nat :=
  match (if ("drama/".toList).isPrefixOf t then digitsAt (t.drop 6) else none) with
  | some n => some n
  | none => digitsAt t

/-- The search `re.search` of the work-ID pattern: leftmost position at which
the pattern matches wins. -/
def findWorkId : List Char → Option Nat
  | [] => none
  | c :: rest =>
    match (if ("/mdrama/".toList).isPrefixOf (c :: rest)
           then idAfterMdrama ((c :: rest).drop 8) else none) with
    | some n => some n
    | none => findWorkId rest

/-- The resolver `parse_work_id(work_url, fallback)`. -/
def parse_work_id (work_url fallback : String) : Option Nat :=
  let u := pyStrip work_url
  match findWorkId u.toList with
  | some n => some n
  | none =>
    if fallback ≠ "" && fallback.toList.all Char.isDigit
    then some (digitsToNat fallback.toList)
    else none

/-! ### Retry Controller (`_request_with_retry`) -/

/-- The constant `MAX_RETRIES`. -/
def MAX_RETRIES : Nat := 6

/-- An HTTP response, as far as the control flow observes it: the status
code, the parsed `Retry-After` header and the decoded body. -/
structure HttpResp where
  status : Nat
  retryAfter : Option Int
  body : JVal

/-- One transport attempt: `.error` models a raised `requests.RequestException`. -/
def Transport := Nat → Except Unit HttpResp

/-- The loop body of `_request_with_retry`, with `attempt` the number of
attempts already made and `remaining` the attempts left of `MAX_RETRIES`.
Status 429/502/503/504 and network errors sleep (not modelled) and retry;
any other response is returned as-is. -/
def request_with_retry_aux (req : Transport) : Nat → Nat → Except String HttpResp
  | _, 0 => .error "Request failed after retries"
  | attempt, r + 1 =>
    match req attempt with
    | .error _ => request_with_retry_aux req (attempt + 1) r
    | .ok resp =>
      if resp.status == 429 || resp.status == 502 || resp.status == 503 || resp.status == 504
      then request_with_retry_aux req (attempt + 1) r
      else .ok resp

/-- The wrapper `_request_with_retry(method, url, ...)` over an abstract transport. -/
def request_with_retry (req : Transport) : Except String HttpResp :=
  request_with_retry_aux req 0 MAX_RETRIES

/-- The call `maoer_get_drama(work_id)`: a single direct `requests.get` (attempt 0 of
the transport, no retry wrapper), then `raise_for_status()` (raises on any
status ≥ 400), then response parsing. -/
def maoer_get_drama (req : Transport) : Except String (JVal × JVal) :=
  match req 0 with
  | .error _ => .error "network error"
  | .ok r =>
    if r.status ≥ 400 then .error ("HTTP " ++ toString r.status)
    else .ok (maoer_get_drama_parse r.body)

/-- The call `maoer_get_episode_details(work_id)`: likewise a single direct
`requests.get` plus `raise_for_status()`, then parsing. -/
def maoer_get_episode_details (req : Transport) : Except String JVal :=
  match req 0 with
  | .error _ => .error "network error"
  | .ok r =>
    if r.status ≥ 400 then .error ("HTTP " ++ toString r.status)
    else .ok (maoer_get_episode_details_parse r.body)

/-! ### Reconciliation Orchestrator (`main` loop body) -/

/-- One row of `notion_query_rows_target()`. -/
structure Row where
  page_id : String
  work_url : String
  work_id_text : String
  platform : String
  main_cv_override : String
  last_sync_start : String
  is_serial_current : Bool

/-- Per-record outcome of one iteration of the `main` loop. -/
inductive Outcome where
  | skippedParse
  | skippedPolicy
  | updated
deriving DecidableEq, Repr

/-- The collaborators of one run, abstracted at their interface boundary:
the ISO parser, the clock, the destination schema, the source fetch
(`maoer_fetch`, may raise) and the record-store write
(`notion_update_page`, may raise after its own retries). -/
structure RunEnv where
  parseIso : String → Option Int
  now : Int
  schema : List String
  fetch : Nat → Except String SourceData
  write : String → List (String × JVal) → Except String Unit

/-- The body of the `for` loop in `main`, for one row.  A `.error` models an
exception raised by `maoer_fetch` or `notion_update_page` propagating out of
the loop (the body contains no handler). -/
def processRecord (env : RunEnv) (row : Row) : Except String Outcome :=
  match parse_work_id row.work_url row.work_id_text with
  | none => .ok .skippedParse
  | some work_id =>
    if work_id = 0 then .ok .skippedParse
    else if ¬ should_update env.parseIso env.now row.is_serial_current row.last_sync_start then
      .ok .skippedPolicy
    else
      match env.fetch work_id with
      | .error e => .error e
      | .ok data =>
        let override := pyStrip row.main_cv_override
        let data := if override ≠ "" then { data with cv_text := override } else data
        let props := build_props env.schema work_id row.work_url data
        match env.write row.page_id props with
        | .error e => .error e
        | .ok _ => .ok .updated

/-- The `for` loop of `main` over the listed rows: per-record outcomes are
accumulated until either the rows are exhausted or an uncaught exception
aborts the loop (second component: the propagated error, if any). -/
def runAll (env : RunEnv) : List Row → List Outcome × Option String
  | [] => ([], none)
  | row :: rest =>
    match processRecord env row with
    | .ok o =>
      let r := runAll env rest
      (o :: r.1, r.2)
    | .error e => ([], some e)

/-! ## Theorems -/

/-- A surviving entry of either pass never hits a stoplist. -/
theorem extractCredit_stoplists (item : JVal) (ch n g : String)
    (h : extractCredit item = some (ch, n, g)) :
    MUSIC_WORDS_STRONG.any (fun w => strIn w ch) = false
    ∧ BAD_WORDS_STRONG.any (fun w => strIn w ch) = false := by
  simp only [extractCredit] at h
  split_ifs at h with h1 h2 h3
  · simp only [Option.some.injEq, Prod.mk.injEq] at h
    obtain ⟨hch, -, -⟩ := h
    subst hch
    exact ⟨Bool.not_eq_true _ ▸ h2, Bool.not_eq_true _ ▸ h3⟩

/-- Members of either pass's candidate list pass both stoplists. -/
theorem mem_passes_stoplists (cvs : List JVal) (c : Cand)
    (h : c ∈ strictCands cvs ∨ c ∈ relaxedCands cvs) :
    MUSIC_WORDS_STRONG.any (fun w => strIn w c.character) = false
    ∧ BAD_WORDS_STRONG.any (fun w => strIn w c.character) = false := by
  rcases h with h | h <;>
  · simp only [strictCands, relaxedCands, List.mem_filterMap, Option.map_eq_some'] at h
    obtain ⟨item, -, cng, hsome, hc⟩ := h
    have := extractCredit_stoplists item cng.1 cng.2.1 cng.2.2
      (by simpa using hsome)
    subst hc
    simpa using this

/-- Members of the combined candidate list pass both stoplists. -/
theorem mem_candList_stoplists (cvs : List JVal) (k : Nat) (c : Cand)
    (h : c ∈ candList cvs k) :
    MUSIC_WORDS_STRONG.any (fun w => strIn w c.character) = false
    ∧ BAD_WORDS_STRONG.any (fun w => strIn w c.character) = false := by
  apply mem_passes_stoplists cvs
  simp only [candList] at h
  split at h
  · exact (List.mem_append.mp h)
  · exact Or.inl h

/-- The selected top-`k` entries all come from the combined candidate list. -/
theorem pickTop_subset (cvs : List JVal) (k : Nat) (c : Cand)
    (h : c ∈ pickTop cvs k) : c ∈ candList cvs k :=
  ((List.perm_insertionSort candLe (candList cvs k)).mem_iff).mp
    (List.take_subset _ _ h)

/-- C6: for every input credit list and every `k`, an entry whose role label
contains any music-credit stoplist term is never in the ranker's selected
output, whichever pass produced the candidates; likewise for the
production-credit stoplist. -/
theorem C6_stoplists_never_selected (cvs : List JVal) (k : Nat) (c : Cand)
    (h : c ∈ pickTop cvs k) :
    (∀ w ∈ MUSIC_WORDS_STRONG, strIn w c.character = false)
    ∧ (∀ w ∈ BAD_WORDS_STRONG, strIn w c.character = false) := by
  have hs := mem_candList_stoplists cvs k c (pickTop_subset cvs k c h)
  refine ⟨fun w hw => ?_, fun w hw => ?_⟩
  · have h1 : ∀ x ∈ MUSIC_WORDS_STRONG, strIn x c.character = false := by
      simpa [List.any_eq_not_all_not] using hs.1
    exact h1 w hw
  · have h2 : ∀ x ∈ BAD_WORDS_STRONG, strIn x c.character = false := by
      simpa [List.any_eq_not_all_not] using hs.2
    exact h2 w hw

/-- A one-entry credit list with a clean labelled credit (used as a concrete
input by several checks). -/
def cvs1 : List JVal :=
  [.obj [("character", .str "小明"), ("cv_info", .obj [("name", .str "甲")])]]

/-- Witness for C6: a concrete selected entry, whose role label hits no
music-credit stoplist term. -/
theorem C6_stoplists_never_selected_witness :
    (⟨20, "小明", "甲", ""⟩ : Cand) ∈ pickTop cvs1 4
    ∧ (∀ w ∈ MUSIC_WORDS_STRONG, strIn w (Cand.character ⟨20, "小明", "甲", ""⟩) = false) := by
  have hm : (⟨20, "小明", "甲", ""⟩ : Cand) ∈ pickTop cvs1 4 := by decide
  exact ⟨hm, (C6_stoplists_never_selected cvs1 4 _ hm).1⟩

/-- Counterexample for C7: with a single passing credit and `k = 2`, the
relaxed pass does not merely backfill the one remaining open slot — it
re-adds the already selected entry, so the same credit fills both slots. -/
theorem C7_relaxed_backfill_counterexample :
    pick_main_cvs cvs1 2 = "小明 - 甲; 小明 - 甲"
    ∧ pickTop cvs1 2 = [⟨20, "小明", "甲", ""⟩, ⟨5, "小明", "甲", ""⟩]
    ∧ (strictCands cvs1).length = 1 ∧ cvs1.length = 1 := by
  exact ⟨by decide, by decide, by decide, by decide⟩

/-- C7 (amended): when fewer than `k` entries pass the strict pass, the
relaxed pass appends every stoplist-passing entry again with a flat score
of 5 (entries already selected may be duplicated); the output is the top
`k` of the combined candidate list under the stable descending-score sort:
its length is `min k` of the combined length, it is sorted descending, all
its entries come from the combined list, the relaxed pass is not used when
the strict pass already has `k` entries, and the sort keeps the relative
order of any score-respecting pair (stability). -/
theorem C7_relaxed_pass_amended (cvs : List JVal) (k : Nat) :
    (pickTop cvs k).length = min k (candList cvs k).length
    ∧ List.Sorted candLe (pickTop cvs k)
    ∧ (∀ c ∈ pickTop cvs k, c ∈ candList cvs k)
    ∧ (∀ c ∈ relaxedCands cvs, c.score = 5)
    ∧ (k ≤ (strictCands cvs).length → candList cvs k = strictCands cvs)
    ∧ (∀ a b : Cand, List.Sublist [a, b] (candList cvs k) → candLe a b →
        List.Sublist [a, b] (List.insertionSort candLe (candList cvs k))) := by
  refine ⟨?_, ?_, ?_, ?_, ?_, ?_⟩
  · simp [pickTop, List.length_take,
      (List.perm_insertionSort candLe (candList cvs k)).length_eq]
  · exact List.Pairwise.sublist (List.take_sublist _ _)
      (List.sorted_insertionSort candLe _)
  · exact fun c hc => pickTop_subset cvs k c hc
  · intro c hc
    simp only [relaxedCands, List.mem_filterMap, Option.map_eq_some'] at hc
    obtain ⟨item, -, cng, -, hc⟩ := hc
    rw [← hc]
  · intro hk
    simp only [candList]
    rw [if_neg (by omega)]
  · intro a b hsub hle
    exact List.pair_sublist_insertionSort hle hsub

/-- Witness for C7 (amended), at a concrete list: the relaxed duplicate of
the one passing credit has flat score 5, and with `k = 1` (strict pass
full) the relaxed pass is not used. -/
theorem C7_relaxed_pass_amended_witness :
    Cand.score ⟨5, "小明", "甲", ""⟩ = 5 ∧ candList cvs1 1 = strictCands cvs1 := by
  refine ⟨?_, ?_⟩
  · exact (C7_relaxed_pass_amended cvs1 2).2.2.2.1 ⟨5, "小明", "甲", ""⟩ (by decide)
  · exact (C7_relaxed_pass_amended cvs1 1).2.2.2.2.1 (by decide)

/-- C4: the update scheduler is pure: an empty last-sync yields due; an
unparseable one yields due; a parseable one on a non-serial record yields
not due regardless of age; a parseable one on a serial record yields due
iff `now - last_sync` is at least 7 days, boundary inclusive. -/
theorem C4_should_update_spec (parseIso : String → Option Int) (now dt : Int)
    (serial : Bool) (s : String) :
    should_update parseIso now serial "" = true
    ∧ (s ≠ "" → parseIso s = none → should_update parseIso now serial s = true)
    ∧ (s ≠ "" → parseIso s = some dt → should_update parseIso now false s = false)
    ∧ (s ≠ "" → parseIso s = some dt →
        (should_update parseIso now true s = true ↔
          UPDATE_DAYS_SERIAL * 86400 ≤ now - dt)) := by
  refine ⟨by simp [should_update], fun h1 h2 => ?_, fun h1 h2 => ?_, fun h1 h2 => ?_⟩
  · simp [should_update, h1, h2]
  · simp [should_update, h1, h2]
  · simp [should_update, h1, h2]

/-- A fixed clock for scheduler checks: `now = 0`, with three parseable
timestamps 3, 7 and 8 days in the past. -/
def pC4 : String → Option Int := fun s =>
  if s = "-3d" then some (-259200)
  else if s = "-7d" then some (-604800)
  else if s = "-8d" then some (-691200)
  else none

/-- Witness for C4, covering the spec's unit vectors plus the unparseable
case and the inclusive 7-day boundary. -/
theorem C4_should_update_spec_witness :
    should_update pC4 0 false "" = true
    ∧ should_update pC4 0 true "garbage" = true
    ∧ should_update pC4 0 false "-8d" = false
    ∧ should_update pC4 0 true "-3d" = false
    ∧ should_update pC4 0 true "-8d" = true
    ∧ should_update pC4 0 true "-7d" = true := by
  refine ⟨(C4_should_update_spec pC4 0 0 false "x").1,
    (C4_should_update_spec pC4 0 0 true "garbage").2.1 (by decide) (by decide),
    (C4_should_update_spec pC4 0 (-691200) true "-8d").2.2.1 (by decide) (by decide),
    ?_, ?_, ?_⟩
  · have h := (C4_should_update_spec pC4 0 (-259200) true "-3d").2.2.2
      (by decide) (by decide)
    exact (Bool.not_eq_true _) ▸ (mt h.mp (by decide))
  · exact ((C4_should_update_spec pC4 0 (-691200) true "-8d").2.2.2
      (by decide) (by decide)).mpr (by decide)
  · exact ((C4_should_update_spec pC4 0 (-604800) true "-7d").2.2.2
      (by decide) (by decide)).mpr (by decide)

/-- C5: every field name in a patch built by `build_props` is declared in
the destination schema. -/
theorem C5_patch_fields_in_schema (schema : List String) (work_id : Nat)
    (work_url : String) (data : SourceData) (name : String) (v : JVal)
    (h : (name, v) ∈ build_props schema work_id work_url data) :
    name ∈ schema := by
  have hc := List.of_mem_filter h
  simpa using hc

/-- A snapshot with nothing known from the source. -/
def sd0 : SourceData := ⟨.null, .null, .null, false, .null, .null, "", "t"⟩

/-- Witness for C5: a concrete patch entry, whose name is in the schema. -/
theorem C5_patch_fields_in_schema_witness :
    (("Platform", JVal.obj [("select", JVal.obj [("name", JVal.str "猫耳")])]) ∈
      build_props ["Platform"] 1 "u" sd0)
    ∧ "Platform" ∈ ["Platform"] := by
  have he : build_props ["Platform"] 1 "u" sd0 =
      [("Platform", JVal.obj [("select", JVal.obj [("name", JVal.str "猫耳")])])] := rfl
  have hm : ("Platform", JVal.obj [("select", JVal.obj [("name", JVal.str "猫耳")])]) ∈
      build_props ["Platform"] 1 "u" sd0 := by
    rw [he]; exact List.mem_singleton_self _
  exact ⟨hm, C5_patch_fields_in_schema _ _ _ _ _ _ hm⟩

/-- Counterexample for C1: with price unknown (`null`) and an empty ranked
cast text, the built patch does contain an explicit `null` for the Price
field (the `Price` write is unconditional in `build_props`). -/
theorem C1_price_explicit_null_counterexample :
    ("Price", JVal.obj [("number", JVal.null)]) ∈ build_props ["Price"] 1 "u" sd0 := by
  have he : build_props ["Price"] 1 "u" sd0 =
      [("Price", JVal.obj [("number", JVal.null)])] := rfl
  rw [he]; exact List.mem_singleton_self _

/-- C1 (amended): the CV field is omitted entirely whenever the ranked cast
text is empty, but the Price field — when declared in the schema — is always
written, as an explicit `null` number payload when the source price is
unknown. -/
theorem C1_omission_amended (schema : List String) (work_id : Nat)
    (work_url : String) (data : SourceData) :
    (data.cv_text = "" → ∀ v, ("CV", v) ∉ build_props schema work_id work_url data)
    ∧ (data.price = JVal.null → "Price" ∈ schema →
        ("Price", JVal.obj [("number", JVal.null)]) ∈
          build_props schema work_id work_url data) := by
  constructor
  · intro hcv v hv
    simp [build_props, candidateProps, hcv, List.mem_filter] at hv
  · intro hp hs
    apply List.mem_filter.mpr
    refine ⟨?_, by simpa using hs⟩
    rw [← hp]
    simp [candidateProps]

/-- Witness for C1 (amended) at the all-unknown snapshot. -/
theorem C1_omission_amended_witness :
    (∀ v, ("CV", v) ∉ build_props ["Price", "CV"] 1 "u" sd0)
    ∧ ("Price", JVal.obj [("number", JVal.null)]) ∈
        build_props ["Price", "CV"] 1 "u" sd0 := by
  exact ⟨(C1_omission_amended _ _ _ _).1 rfl,
    (C1_omission_amended _ _ _ _).2 rfl (by simp)⟩

/-- C10: when the metadata's `serialize` flag is absent, `null` or falsy, the
snapshot's `is_serial` is `false`, and `build_props` then writes the
`Is Serial` checkbox as unchecked whenever that field is in the schema. -/
theorem C10_serialize_falsy_not_serial (metaJ detailJ : JVal) (now_iso : String)
    (schema : List String) (work_id : Nat) (work_url : String)
    (h : pyTruthy ((maoer_get_drama_parse metaJ).1.get "serialize") = false) :
    (maoer_fetch_parse metaJ detailJ now_iso).is_serial = false
    ∧ ("Is Serial" ∈ schema →
        ("Is Serial", JVal.obj [("checkbox", JVal.bool false)]) ∈
          build_props schema work_id work_url (maoer_fetch_parse metaJ detailJ now_iso)) := by
  have h1 : (maoer_fetch_parse metaJ detailJ now_iso).is_serial = false := by
    simp [maoer_fetch_parse, h]
  refine ⟨h1, fun hs => ?_⟩
  apply List.mem_filter.mpr
  refine ⟨?_, by simpa using hs⟩
  simp [candidateProps, h1]

/-- Witness for C10: a metadata response with no `serialize` key at all. -/
theorem C10_serialize_falsy_not_serial_witness :
    (maoer_fetch_parse (.obj []) (.obj []) "t").is_serial = false
    ∧ ("Is Serial", JVal.obj [("checkbox", JVal.bool false)]) ∈
        build_props ["Is Serial"] 1 "u" (maoer_fetch_parse (.obj []) (.obj []) "t") := by
  have h := C10_serialize_falsy_not_serial (.obj []) (.obj []) "t" ["Is Serial"] 1 "u" rfl
  exact ⟨h.1, h.2 (by simp)⟩

/-- C9: the resolver does return `0` for `/mdrama/0` and for the all-digit
fallback `"0"`, and the `if not work_id` check in `main` treats a resolved
`0` as unresolvable: the record is skipped with the cannot-parse reason. -/
theorem C9_work_id_zero_skipped (env : RunEnv) (row : Row)
    (h : parse_work_id row.work_url row.work_id_text = some 0) :
    parse_work_id "https://www.missevan.com/mdrama/0" "" = some 0
    ∧ parse_work_id "x" "0" = some 0
    ∧ processRecord env row = .ok .skippedParse := by
  refine ⟨by decide, by decide, ?_⟩
  unfold processRecord
  rw [h]
  rfl

/-- A run environment whose remote calls all succeed trivially. -/
def env0 : RunEnv := ⟨fun _ => none, 0, [], fun _ => .ok sd0, fun _ _ => .ok ()⟩

/-- A row whose work URL carries work ID `0`. -/
def rowZero : Row := ⟨"p", "https://www.missevan.com/mdrama/0", "", "猫耳", "", "", false⟩

/-- Witness for C9 at the `/mdrama/0` row. -/
theorem C9_work_id_zero_skipped_witness :
    processRecord env0 rowZero = .ok .skippedParse :=
  (C9_work_id_zero_skipped env0 rowZero (by decide)).2.2

/-- A minimal due row (empty `Last Sync`) pointing at the given URL. -/
def rowOf (u : String) : Row := ⟨"p", u, "", "猫耳", "", "", false⟩

/-- An environment whose fetch fails (after retries) for work 1 only. -/
def envFail : RunEnv :=
  ⟨fun _ => none, 0, [],
   fun wid => if wid = 1 then .error "HTTP 500" else .ok sd0,
   fun _ _ => .ok ()⟩

/-- Two due records; the first one's fetch fails terminally. -/
def rowsC2 : List Row :=
  [rowOf "https://www.missevan.com/mdrama/1", rowOf "https://www.missevan.com/mdrama/2"]

/-- Counterexample for C2: the fetch failure of record 1 aborts the whole
run — no outcome is recorded and record 2 is never processed, although
processing it alone would have succeeded. -/
theorem C2_fetch_failure_aborts_counterexample :
    runAll envFail rowsC2 = ([], some "HTTP 500")
    ∧ processRecord envFail (rowOf "https://www.missevan.com/mdrama/2") = .ok .updated :=
  ⟨rfl, rfl⟩

/-- C2 (amended): a fetch or write failure propagates out of the per-record
loop and aborts the run, so later records go unprocessed: the run records an
outcome for every listed record exactly when no record raised, and an abort
leaves strictly fewer outcomes than records. -/
theorem C2_run_aborts_amended (env : RunEnv) (rows : List Row) :
    ((runAll env rows).2 = none ↔ (runAll env rows).1.length = rows.length)
    ∧ ((runAll env rows).2.isSome → (runAll env rows).1.length < rows.length) := by
  induction rows with
  | nil => simp [runAll]
  | cons row rest ih =>
    cases hp : processRecord env row with
    | ok o =>
      simp only [runAll, hp, List.length_cons]
      refine ⟨⟨fun h2 => by rw [ih.1.mp h2], fun hl => ih.1.mpr (by omega)⟩,
        fun hs => by have := ih.2 hs; omega⟩
    | error e =>
      have he : runAll env (row :: rest) = ([], some e) := by simp only [runAll, hp]
      rw [he]
      refine ⟨⟨fun h2 => absurd h2 (by simp), fun hl => ?_⟩, fun _ => ?_⟩
      · simp only [List.length_nil, List.length_cons] at hl
        omega
      · simp only [List.length_nil, List.length_cons]
        omega

/-- Witness for C2 (amended): the aborted two-record run has fewer outcomes
than records. -/
theorem C2_run_aborts_amended_witness :
    (runAll envFail rowsC2).1.length < rowsC2.length :=
  (C2_run_aborts_amended envFail rowsC2).2 rfl

/-- A metadata body used by the retry scenario. -/
def metaBody : JVal :=
  .obj [("info", .obj [("drama", .obj [("name", .str "X")]), ("cvs", .arr [])])]

/-- A transport that returns 503 on the first attempt and 200 afterwards. -/
def reqFlaky : Transport := fun n =>
  .ok (if n = 0 then ⟨503, none, .obj []⟩ else ⟨200, none, metaBody⟩)

/-- Counterexample for C3: a transient 503 that the Retry Controller would
recover from (second attempt succeeds) is instead an immediate hard failure
of both source-API calls — they are not wrapped by `_request_with_retry`. -/
theorem C3_source_calls_unretried_counterexample :
    maoer_get_drama reqFlaky = .error "HTTP 503"
    ∧ maoer_get_episode_details reqFlaky = .error "HTTP 503"
    ∧ request_with_retry reqFlaky = .ok ⟨200, none, metaBody⟩ :=
  ⟨rfl, rfl, rfl⟩

/-- C3 (amended): neither source-API call goes through the Retry
Controller: each performs exactly one transport attempt (its result depends
only on attempt 0), propagates any status ≥ 400 — rate-limited and 5xx
included — immediately as a hard failure via `raise_for_status`, and parses
the body of a success response. -/
theorem C3_source_calls_single_attempt_amended (req req2 : Transport) (r : HttpResp) :
    (req 0 = req2 0 →
      maoer_get_drama req = maoer_get_drama req2
      ∧ maoer_get_episode_details req = maoer_get_episode_details req2)
    ∧ (req 0 = .ok r → 400 ≤ r.status →
        maoer_get_drama req = .error ("HTTP " ++ toString r.status)
        ∧ maoer_get_episode_details req = .error ("HTTP " ++ toString r.status))
    ∧ (req 0 = .ok r → r.status < 400 →
        maoer_get_drama req = .ok (maoer_get_drama_parse r.body)
        ∧ maoer_get_episode_details req = .ok (maoer_get_episode_details_parse r.body)) := by
  refine ⟨fun h => ?_, fun h h4 => ?_, fun h h4 => ?_⟩
  · unfold maoer_get_drama maoer_get_episode_details
    rw [h]
    exact ⟨rfl, rfl⟩
  · unfold maoer_get_drama maoer_get_episode_details
    rw [h]
    simp only [ge_iff_le, if_pos h4]
    exact ⟨trivial, trivial⟩
  · unfold maoer_get_drama maoer_get_episode_details
    rw [h]
    simp only [ge_iff_le, if_neg (Nat.not_le.mpr h4)]
    exact ⟨trivial, trivial⟩

/-- A transport answering 404 on every attempt. -/
def req404 : Transport := fun _ => .ok ⟨404, none, .obj []⟩

/-- Witness for C3 (amended): the 404 of the single attempt is propagated. -/
theorem C3_source_calls_single_attempt_amended_witness :
    maoer_get_drama req404 = .error "HTTP 404" :=
  ((C3_source_calls_single_attempt_amended req404 req404 ⟨404, none, .obj []⟩).2.1
    rfl (by decide)).1

/-- The amended episode-count rule, written from the spec's words: use the
listing response's total count whenever a non-null one is present; otherwise
use the number of returned items when at least one item came back; with no
total count and no items, the count is unknown. -/
def episodeCountSpec (detailJ : JVal) : JVal :=
  let info := orObj (detailJ.getD "info" (.obj []))
  if info.isObj then
    let total := (info.get "pagination").get "count"
    if !total.isNull then total
    else
      match info.get "Datas" with
      | .arr items => if 1 ≤ items.length then .num items.length else .null
      | _ => .null
  else .null

/-- The two phrasings of the non-empty-page condition coincide. -/
theorem ifLen (xs : List JVal) :
    (if (!xs.isEmpty) = true then JVal.num xs.length else JVal.null) =
    if 1 ≤ xs.length then JVal.num xs.length else JVal.null := by
  cases xs <;> simp

/-- The `Datas` fallback of `latestCountOf` agrees with the spec-side
fallback of `episodeCountSpec`. -/
theorem datasCase (fs : List (String × JVal)) :
    (match (List.lookup "Datas" fs).getD (JVal.arr []) with
      | JVal.arr ds => if (!ds.isEmpty) = true then JVal.num ds.length else JVal.null
      | _ => JVal.null)
    = match (List.lookup "Datas" fs).getD JVal.null with
      | JVal.arr items => if 1 ≤ items.length then JVal.num items.length else JVal.null
      | _ => JVal.null := by
  cases hd : List.lookup "Datas" fs with
  | none => simp
  | some d =>
    cases d
    case arr xs => exact ifLen xs
    all_goals rfl

/-- The fetcher's episode-count extraction agrees with `episodeCountSpec`
on every listing response. -/
theorem latestCountOf_eq_spec (j : JVal) :
    latestCountOf (maoer_get_episode_details_parse j) = episodeCountSpec j := by
  show latestCountOf (orObj (j.getD "info" (.obj []))) = episodeCountSpec j
  unfold episodeCountSpec
  generalize orObj (j.getD "info" (.obj [])) = info
  cases info with
  | obj fs =>
    simp only [latestCountOf, JVal.isObj, JVal.getD, JVal.get, JVal.find?, if_true]
    cases hp : fs.lookup "pagination" with
    | none =>
      simp only [Option.getD_none, JVal.isObj, JVal.get, JVal.getD, JVal.find?,
        JVal.isNull, Bool.true_and, Bool.not_true, Bool.false_eq_true, if_false]
      exact datasCase fs
    | some p =>
      cases p with
      | obj gs =>
        simp only [Option.getD_some, JVal.isObj, JVal.get, JVal.getD, JVal.find?,
          Bool.true_and]
        cases hc : gs.lookup "count" with
        | none =>
          simp only [Option.getD_none, JVal.isNull, Bool.not_true, Bool.false_eq_true,
            if_false]
          exact datasCase fs
        | some c =>
          cases c with
          | null =>
            simp only [Option.getD_some, JVal.isNull, Bool.not_true, Bool.false_eq_true,
              if_false]
            exact datasCase fs
          | bool b => rfl
          | num n => rfl
          | str s => rfl
          | arr xs => rfl
          | obj hs => rfl
      | null =>
        simp only [Option.getD_some, JVal.isObj, Bool.false_and, JVal.get, JVal.getD,
          JVal.find?, Option.getD_none, JVal.isNull, Bool.not_true, Bool.false_eq_true,
          if_false]
        exact datasCase fs
      | bool b =>
        simp only [Option.getD_some, JVal.isObj, Bool.false_and, JVal.get, JVal.getD,
          JVal.find?, Option.getD_none, JVal.isNull, Bool.not_true, Bool.false_eq_true,
          if_false]
        exact datasCase fs
      | num n =>
        simp only [Option.getD_some, JVal.isObj, Bool.false_and, JVal.get, JVal.getD,
          JVal.find?, Option.getD_none, JVal.isNull, Bool.not_true, Bool.false_eq_true,
          if_false]
        exact datasCase fs
      | str s =>
        simp only [Option.getD_some, JVal.isObj, Bool.false_and, JVal.get, JVal.getD,
          JVal.find?, Option.getD_none, JVal.isNull, Bool.not_true, Bool.false_eq_true,
          if_false]
        exact datasCase fs
      | arr xs =>
        simp only [Option.getD_some, JVal.isObj, Bool.false_and, JVal.get, JVal.getD,
          JVal.find?, Option.getD_none, JVal.isNull, Bool.not_true, Bool.false_eq_true,
          if_false]
        exact datasCase fs
  | null => rfl
  | bool b => rfl
  | num n => rfl
  | str s => rfl
  | arr xs => rfl

/-- Counterexample for C8: a listing response with no total-count field and
an empty item list on the fetched page.  The claim as stated makes the
episode count the number of returned items, `0`; the code leaves it
undetermined (`null`). -/
theorem C8_empty_page_counterexample :
    (maoer_fetch_parse (.obj []) (.obj [("info", .obj [("Datas", .arr [])])]) "t").latest_count
      = JVal.null
    ∧ (maoer_fetch_parse (.obj []) (.obj [("info", .obj [("Datas", .arr [])])]) "t").latest_count
      ≠ JVal.num 0 :=
  ⟨rfl, fun h => JVal.noConfusion h⟩

/-- C8 (amended): the snapshot's episode count equals the listing response's
non-null total-count when present; otherwise it equals the number of items
returned on the fetched first page when at least one item is present;
otherwise it is unknown (`null`).  In particular `{pagination:{count: 24}}`
yields an episode count of 24. -/
theorem C8_episode_count_amended (metaJ detailJ : JVal) (now_iso : String) :
    (maoer_fetch_parse metaJ detailJ now_iso).latest_count = episodeCountSpec detailJ
    ∧ (maoer_fetch_parse metaJ
        (.obj [("info", .obj [("pagination", .obj [("count", .num 24)])])])
        now_iso).latest_count = JVal.num 24 :=
  ⟨latestCountOf_eq_spec detailJ, rfl⟩
